import Mathlib

/-!
Verification of the watchtower topology dashboard logic.

The definitions below are shallow embeddings of the TypeScript source:
`nocStore` (topology state and status counters), `alertStore` (alerts,
toasts, critical overlay), `useWebSocket.ts` (identity resolution and
reconnect backoff), and `TopologyCanvas.tsx` (geometry, layout resolver,
edge projection, persisted positions).  JavaScript numbers are modelled
as rationals, JS objects keyed by string as association lists in key
insertion order, and external effects (clock, storage, JSON parsing)
as explicit parameters.
-/

namespace Watchtower

/-! ## Basic string helpers (JS `String.prototype.includes` / `toLowerCase`) -/

/-- Does the list `n` occur at the head of `h`? (helper for substring test) -/
def listLeadMatch : List Char → List Char → Bool
  | [], _ => true
  | _ :: _, [] => false
  | c :: cs, d :: ds => c == d && listLeadMatch cs ds

/-- Does the list `n` occur contiguously anywhere inside `h`? -/
def listHasSub (n : List Char) : List Char → Bool
  | [] => n.isEmpty
  | d :: ds => listLeadMatch n (d :: ds) || listHasSub n ds

/-- JS `hay.includes(needle)` for ASCII strings. -/
def strIncludes (hay needle : String) : Bool :=
  listHasSub needle.toList hay.toList

/-- JS `s.toLowerCase()` (per-character lowering; adequate for ASCII ids). -/
def strLower (s : String) : String :=
  String.mk (s.data.map Char.toLower)

/-! ## Data model (`types/device.ts`, `types/topology.ts`, `types/connection.ts`)

Only the fields the verified logic reads are carried.  `Device.status`
is a string at runtime (the reconciler casts arbitrary strings into it),
so it is modelled as `String`. -/

structure Device where
  id : String
  ip : Option String
  status : String
  cluster_id : Option String
  deriving Repr, DecidableEq

structure ConnectionEndpoint where
  device : Option String
  port : Option String
  label : Option String
  deriving Repr, DecidableEq

structure Connection where
  id : String
  source : ConnectionEndpoint
  target : ConnectionEndpoint
  connection_type : String
  speed : ℚ
  status : String
  utilization : ℚ
  description : Option String
  deriving Repr, DecidableEq

structure ExternalTarget where
  label : String
  ttype : String
  icon : String
  deriving Repr, DecidableEq

structure ExternalLink where
  id : String
  source : ConnectionEndpoint
  target : ExternalTarget
  speed : ℚ
  status : String
  utilization : ℚ
  description : Option String
  deriving Repr, DecidableEq

/-- `Topology`: devices as an association list `id → Device` in key
insertion order (a JS object), with the aggregate counters. -/
structure Topology where
  devices : List (String × Device)
  connections : List Connection
  external_links : List ExternalLink
  devices_up : ℤ
  devices_down : ℤ
  active_alerts : ℤ
  deriving Repr, DecidableEq

/-- JS `topology.devices[deviceId]`: first entry with the given key. -/
def getDev : List (String × Device) → String → Option Device
  | [], _ => none
  | (k, v) :: t, id => if k = id then some v else getDev t id

/-- Number of devices in the map whose status equals `s`. -/
def countStatus (devs : List (String × Device)) (s : String) : ℕ :=
  devs.countP (fun e => e.2.status == s)

/-! ## `nocStore.updateDeviceStatus` (second store revision, with counters) -/

/-- The device-map update performed by the object spread
`\x7b ...topology.devices, [deviceId]: \x7b ...device, status \x7d \x7d`:
the value at the existing key is replaced in place. -/
def setDevStatus (devs : List (String × Device)) (id st : String) :
    List (String × Device) :=
  devs.map (fun e => if e.1 = id then (e.1, { e.2 with status := st }) else e)

/-- `updateDeviceStatus(deviceId, status)` from `nocStore`: if the device
exists, overwrite its status and, when the status actually changed,
decrement the old status bucket and increment the new one. -/
def updateDeviceStatus (t : Topology) (deviceId status : String) : Topology :=
  match getDev t.devices deviceId with
  | none => t
  | some device =>
      let newStatus := status
      let oldStatus := device.status
      let newDevices := setDevStatus t.devices deviceId newStatus
      let devicesUp :=
        if oldStatus ≠ newStatus then
          (if oldStatus = "up" then t.devices_up - 1 else t.devices_up) +
            (if newStatus = "up" then 1 else 0)
        else t.devices_up
      let devicesDown :=
        if oldStatus ≠ newStatus then
          (if oldStatus = "down" then t.devices_down - 1 else t.devices_down) +
            (if newStatus = "down" then 1 else 0)
        else t.devices_down
      { t with
          devices := newDevices
          devices_up := devicesUp
          devices_down := devicesDown }

/-- A sequence of `updateDeviceStatus` calls, applied in order. -/
def applyStatusUpdates (t : Topology) (cmds : List (String × String)) : Topology :=
  cmds.foldl (fun acc c => updateDeviceStatus acc c.1 c.2) t

/-- The counter invariant: both aggregate counters equal the derived
counts from the device map. -/
def countersConsistent (t : Topology) : Prop :=
  t.devices_up = (countStatus t.devices "up" : ℤ) ∧
    t.devices_down = (countStatus t.devices "down" : ℤ)

instance (t : Topology) : Decidable (countersConsistent t) := by
  unfold countersConsistent; infer_instance

/-! ## `useWebSocket.ts`: identity resolution and reconnect backoff -/

/-- The guard `device.ip && device.ip === hostname` (JS truthiness:
a missing or empty `ip` is falsy). -/
def ipMatches (hostname : String) (d : Device) : Bool :=
  match d.ip with
  | some ip => ip ≠ "" && ip == hostname
  | none => false

/-- `findTopologyDeviceId(hostname, devices)`: one scan over the device
map; per device, exact IP equality is tested before the
case-insensitive substring test. -/
def findTopologyDeviceId (hostname : String) :
    List (String × Device) → Option String
  | [] => none
  | (deviceId, device) :: rest =>
      if ipMatches hostname device then
        some deviceId
      else if strIncludes (strLower hostname) (strLower deviceId) then
        some deviceId
      else
        findTopologyDeviceId hostname rest

/-- Whether one device entry matches a hostname at all (IP or substring). -/
def deviceMatches (hostname : String) (e : String × Device) : Bool :=
  ipMatches hostname e.2 || strIncludes (strLower hostname) (strLower e.1)

/-- The reconnect delay scheduled by `ws.onclose` for attempt counter `n`:
`Math.min(1000 * Math.pow(2, n), 30000)` milliseconds. -/
def reconnectDelay (n : ℕ) : ℕ :=
  min (1000 * 2 ^ n) 30000

/-! ## `alertStore.ts` -/

structure Alert where
  id : String
  device_id : String
  severity : String
  message : String
  status : String
  timestamp : String
  deriving Repr, DecidableEq

structure Toast where
  id : String
  alert : Alert
  dismissed : Bool
  deriving Repr, DecidableEq

structure AlertState where
  alerts : List Alert
  toasts : List Toast
  criticalOverlay : Option Alert
  deriving Repr, DecidableEq

/-- The store's initial state. -/
def emptyAlertState : AlertState :=
  { alerts := [], toasts := [], criticalOverlay := none }

/-- `addToast(alert)`: prepend a fresh toast and keep at most 5.
`now` stands for the external `Date.now()` used in the toast id. -/
def addToast (now : ℕ) (alert : Alert) (s : AlertState) : AlertState :=
  let toast : Toast :=
    { id := "toast-" ++ alert.id ++ "-" ++ toString now
      alert := alert
      dismissed := false }
  { s with toasts := (toast :: s.toasts).take 5 }

/-- `setCriticalOverlay(alert)`. -/
def setCriticalOverlay (a : Option Alert) (s : AlertState) : AlertState :=
  { s with criticalOverlay := a }

/-- `addAlert(alert)`: prepend to the alert list, spawn a toast, and set
the critical overlay when the severity is critical. -/
def addAlert (now : ℕ) (alert : Alert) (s : AlertState) : AlertState :=
  let s1 := { s with alerts := alert :: s.alerts }
  let s2 := addToast now alert s1
  if alert.severity == "critical" then setCriticalOverlay (some alert) s2 else s2

/-- `removeAlert(alertId)`: filter the alert list only. -/
def removeAlert (alertId : String) (s : AlertState) : AlertState :=
  { s with alerts := s.alerts.filter (fun a => a.id ≠ alertId) }

/-- `acknowledgeAlert(alertId)`: mark acknowledged; clear the overlay
when it referenced this alert. -/
def acknowledgeAlert (alertId : String) (s : AlertState) : AlertState :=
  let s1 := { s with
    alerts := s.alerts.map (fun a =>
      if a.id = alertId then { a with status := "acknowledged" } else a) }
  match s.criticalOverlay with
  | some a => if a.id = alertId then { s1 with criticalOverlay := none } else s1
  | none => s1

/-- A sequence of `addAlert` calls (alert together with its `Date.now()`). -/
def runAddAlerts (calls : List (Alert × ℕ)) (s : AlertState) : AlertState :=
  calls.foldl (fun acc c => addAlert c.2 c.1 acc) s

/-! ## Geometry model and layout resolver (`TopologyCanvas.tsx`)

`NODE_SIZES`, `PADDING`, `getNodeBoundingBox`, `boxesOverlap`,
`calculatePushVector` and `resolveOverlaps`, with JS numbers as `ℚ`.
Within one relaxation pass the source mutates `result[...].position`
while reading only the bounding boxes computed at the start of the
pass, so a pass is the additive accumulation of push vectors computed
from the pass-start snapshot; the embedding makes that snapshot
explicit. -/

inductive NType where
  | cluster
  | device
  | external
  | vlanGroup
  deriving Repr, DecidableEq

structure Pos where
  x : ℚ
  y : ℚ
  deriving Repr, DecidableEq

/-- A render node: id, type tag, position, and the `data.clusterId`
carried by member-device nodes. -/
structure RNode where
  id : String
  ntype : NType
  pos : Pos
  clusterId : Option String
  deriving Repr, DecidableEq

/-- `PADDING = 40`. -/
def PADDING : ℚ := 40

/-- `NODE_SIZES` width column. -/
def nodeWidth : NType → ℚ
  | .cluster => 180
  | .device => 160
  | .external => 140
  | .vlanGroup => 220

/-- `NODE_SIZES` height column. -/
def nodeHeight : NType → ℚ
  | .cluster => 120
  | .device => 80
  | .external => 100
  | .vlanGroup => 150

structure BoundingBox where
  id : String
  clusterId : Option String
  x : ℚ
  y : ℚ
  width : ℚ
  height : ℚ
  right : ℚ
  bottom : ℚ
  deriving Repr, DecidableEq

/-- `getNodeBoundingBox(node)`: the node rectangle grown by `PADDING`
on every side. -/
def getNodeBoundingBox (n : RNode) : BoundingBox :=
  { id := n.id
    clusterId := n.clusterId
    x := n.pos.x - PADDING
    y := n.pos.y - PADDING
    width := nodeWidth n.ntype + PADDING * 2
    height := nodeHeight n.ntype + PADDING * 2
    right := n.pos.x + nodeWidth n.ntype + PADDING
    bottom := n.pos.y + nodeHeight n.ntype + PADDING }

/-- `boxesOverlap(a, b)`:
`!(a.right < b.x || b.right < a.x || a.bottom < b.y || b.bottom < a.y)`. -/
def boxesOverlap (a b : BoundingBox) : Bool :=
  !(decide (a.right < b.x) || decide (b.right < a.x) ||
    decide (a.bottom < b.y) || decide (b.bottom < a.y))

/-- `calculatePushVector(a, b)`: push `b` along the axis of smaller
overlap, by that overlap plus `PADDING`, signed toward `b`'s centroid. -/
def calculatePushVector (a b : BoundingBox) : ℚ × ℚ :=
  let overlapX := min a.right b.right - max a.x b.x
  let overlapY := min a.bottom b.bottom - max a.y b.y
  let aCenterX := a.x + a.width / 2
  let aCenterY := a.y + a.height / 2
  let bCenterX := b.x + b.width / 2
  let bCenterY := b.y + b.height / 2
  if overlapX < overlapY then
    let direction : ℚ := if bCenterX > aCenterX then 1 else -1
    (overlapX * direction + PADDING * direction, 0)
  else
    let direction : ℚ := if bCenterY > aCenterY then 1 else -1
    (0, overlapY * direction + PADDING * direction)

/-- Out-of-range placeholder; typed `device` with no cluster so that it
can never participate in a push. -/
def dummyNode : RNode :=
  { id := "", ntype := .device, pos := ⟨0, 0⟩, clusterId := none }

/-- The node at index `i` of the pass-start snapshot. -/
def nodeAt (ns : List RNode) (i : ℕ) : RNode :=
  ns.getD i dummyNode

/-- The pass-start bounding box at index `i`. -/
def boxAt (ns : List RNode) (i : ℕ) : BoundingBox :=
  getNodeBoundingBox (nodeAt ns i)

/-- JS-truthy `data.clusterId` (present and non-empty). -/
def truthyClusterId (n : RNode) : Option String :=
  match n.clusterId with
  | some c => if c = "" then none else some c
  | none => none

/-- First-occurrence deduplication (JS `Map` insertion order). -/
def dedupFirst (l : List String) : List String :=
  l.foldl (fun acc a => if a ∈ acc then acc else acc ++ [a]) []

/-- Keys of `expandedClusterBounds`, in first-appearance order. -/
def clusterIdsOf (ns : List RNode) : List String :=
  dedupFirst (ns.filterMap truthyClusterId)

/-- The member-device boxes grouped under one cluster id. -/
def memberBoxes (ns : List RNode) (cid : String) : List BoundingBox :=
  (ns.filter (fun n => truthyClusterId n == some cid)).map getNodeBoundingBox

/-- `Math.min(...)` over a list (never called on `[]` by construction). -/
def qMin : List ℚ → ℚ
  | [] => 0
  | a :: t => t.foldl min a

/-- `Math.max(...)` over a list (never called on `[]` by construction). -/
def qMax : List ℚ → ℚ
  | [] => 0
  | a :: t => t.foldl max a

/-- The aggregate bounding box spanning a cluster's member boxes. -/
def aggBox (ns : List RNode) (cid : String) : BoundingBox :=
  let mbs := memberBoxes ns cid
  let minX := qMin (mbs.map (·.x))
  let minY := qMin (mbs.map (·.y))
  let maxRight := qMax (mbs.map (·.right))
  let maxBottom := qMax (mbs.map (·.bottom))
  { id := cid
    clusterId := none
    x := minX
    y := minY
    width := maxRight - minX
    height := maxBottom - minY
    right := maxRight
    bottom := maxBottom }

/-- Outer-loop participation in the pairwise phase: not a device node,
and not a cluster node listed in the expanded set (the source skips
those). -/
def phaseAOuter (E : List String) (n : RNode) : Bool :=
  n.ntype != .device && !(n.ntype == .cluster && E.contains n.id)

/-- Inner-loop participation in the pairwise phase: not a device node. -/
def phaseAInner (n : RNode) : Bool :=
  n.ntype != .device

/-- Participation against an aggregate cluster box: the source skips
member devices of that cluster and then every other device node. -/
def phaseBCond (cid : String) (n : RNode) : Bool :=
  !(n.ntype == .device && n.clusterId == some cid) && !(n.ntype == .device)

/-- All ordered pairs `(l[i], l[j])` with `i < j`. -/
def listPairs {α : Type} : List α → List (α × α)
  | [] => []
  | a :: t => t.map (fun b => (a, b)) ++ listPairs t

/-- Pairwise-phase pushes received by node `k` (from every earlier
participating node that overlaps it). -/
def deltaA (ns : List RNode) (E : List String) (k : ℕ) : ℚ × ℚ :=
  ((List.range k).map (fun i =>
    if phaseAOuter E (nodeAt ns i) && phaseAInner (nodeAt ns k) &&
        boxesOverlap (boxAt ns i) (boxAt ns k) then
      calculatePushVector (boxAt ns i) (boxAt ns k)
    else (0, 0))).sum

/-- Aggregate-vs-node pushes received by node `k`. -/
def deltaB (ns : List RNode) (k : ℕ) : ℚ × ℚ :=
  ((clusterIdsOf ns).map (fun cid =>
    if phaseBCond cid (nodeAt ns k) &&
        boxesOverlap (aggBox ns cid) (boxAt ns k) then
      calculatePushVector (aggBox ns cid) (boxAt ns k)
    else (0, 0))).sum

/-- Aggregate-vs-aggregate pushes received by node `k` (a member device
of the second cluster of an overlapping pair moves rigidly with it). -/
def deltaC (ns : List RNode) (k : ℕ) : ℚ × ℚ :=
  ((listPairs (clusterIdsOf ns)).map (fun pq =>
    if boxesOverlap (aggBox ns pq.1) (aggBox ns pq.2) &&
        (nodeAt ns k).ntype == .device && (nodeAt ns k).clusterId == some pq.2 then
      calculatePushVector (aggBox ns pq.1) (aggBox ns pq.2)
    else (0, 0))).sum

/-- Net push received by node `k` in one pass. -/
def deltaTotal (ns : List RNode) (E : List String) (k : ℕ) : ℚ × ℚ :=
  let a := deltaA ns E k
  let b := deltaB ns k
  let c := deltaC ns k
  (a.1 + b.1 + c.1, a.2 + b.2 + c.2)

/-- Whether one pass records any overlap (`hasOverlap` at pass end). -/
def passOv (ns : List RNode) (E : List String) : Bool :=
  ((List.range ns.length).any (fun j => (List.range j).any (fun i =>
    phaseAOuter E (nodeAt ns i) && phaseAInner (nodeAt ns j) &&
      boxesOverlap (boxAt ns i) (boxAt ns j)))) ||
  ((clusterIdsOf ns).any (fun cid => (List.range ns.length).any (fun k =>
    phaseBCond cid (nodeAt ns k) &&
      boxesOverlap (aggBox ns cid) (boxAt ns k)))) ||
  ((listPairs (clusterIdsOf ns)).any (fun pq =>
    boxesOverlap (aggBox ns pq.1) (aggBox ns pq.2)))

/-- Apply a push vector to a node's position. -/
def addDelta (n : RNode) (d : ℚ × ℚ) : RNode :=
  { n with pos := ⟨n.pos.x + d.1, n.pos.y + d.2⟩ }

/-- Apply every node's net push, indices starting at `k`. -/
def applyDeltas (ns0 : List RNode) (E : List String) : ℕ → List RNode → List RNode
  | _, [] => []
  | k, n :: t => addDelta n (deltaTotal ns0 E k) :: applyDeltas ns0 E (k + 1) t

/-- One relaxation pass over the node list. -/
def passNodes (ns : List RNode) (E : List String) : List RNode :=
  applyDeltas ns E 0 ns

/-- The `while (hasOverlap && iteration < maxIterations)` loop. -/
def resolveLoop (E : List String) : ℕ → List RNode → List RNode
  | 0, ns => ns
  | fuel + 1, ns =>
      let ns' := passNodes ns E
      if passOv ns E then resolveLoop E fuel ns' else ns'

/-- `resolveOverlaps(nodes, expandedClusterIds)`: up to 50 passes,
stopping early on a pass with zero pushes. -/
def resolveOverlaps (ns : List RNode) (E : List String) : List RNode :=
  resolveLoop E 50 ns

/-! ## Position store load (`loadSavedPositions`)

The store as `JSON.parse` would deliver it: entries of node id to a
small JSON value.  The input models the two external effects:
`none` is `localStorage.getItem` returning `null`, `some none` is
`JSON.parse` (or `getItem`) throwing, `some (some store)` is a
successful parse. -/

inductive JVal where
  | jnum : ℚ → JVal
  | jstr : String → JVal
  | jobj : List (String × JVal) → JVal

/-- A well-formed stored entry value: an object with numeric `x`, `y`. -/
def wellFormedPos : JVal → Bool
  | .jobj [("x", .jnum _), ("y", .jnum _)] => true
  | _ => false

/-- `loadSavedPositions()`: `try … return saved ? JSON.parse(saved) : \x7b\x7d
… catch … return \x7b\x7d`. -/
def loadSavedPositions : Option (Option (List (String × JVal))) → List (String × JVal)
  | none => []
  | some none => []
  | some (some store) => store

/-! ## Physical edge projection (`topologyToEdges`, current revision) -/

structure EdgeData where
  sourcePort : Option String
  targetPort : Option String
  speed : ℚ
  utilization : ℚ
  status : String
  connectionType : Option String
  description : Option String
  speedtestStatus : Option (Option String)
  deriving Repr, DecidableEq

structure REdge where
  id : String
  source : String
  target : String
  etype : String
  data : EdgeData
  deriving Repr, DecidableEq

/-- JS-truthy optional string (absent or empty is falsy). -/
def truthyStr : Option String → Option String
  | some s => if s = "" then none else some s
  | none => none

/-- `getEdgeStatus`: a down endpoint forces down, a degraded endpoint
forces degraded, otherwise the connection's own status stands. -/
def getEdgeStatus (t : Topology) (sourceDeviceId targetDeviceId connStatus : String) :
    String :=
  let sd := (getDev t.devices sourceDeviceId).map Device.status
  let td := (getDev t.devices targetDeviceId).map Device.status
  if sd == some "down" || td == some "down" then "down"
  else if sd == some "degraded" || td == some "degraded" then "degraded"
  else connStatus

/-- Lexicographic comparison of character lists (the order JS default
`sort()` applies to two strings, compared code unit by code unit). -/
def charListLt : List Char → List Char → Bool
  | [], [] => false
  | [], _ :: _ => true
  | _ :: _, [] => false
  | c :: cs, d :: ds => decide (c < d) || (c == d && charListLt cs ds)

/-- String comparison used by the sorted edge key. -/
def strLtB (a b : String) : Bool :=
  charListLt a.data b.data

/-- `[actualSource, actualTarget].sort().join('--')` for two strings. -/
def edgeKey (a b : String) : String :=
  if strLtB b a then b ++ "--" ++ a else a ++ "--" ++ b

/-- The edge a single device-to-device connection would contribute:
endpoints rolled up to clusters unless expanded, dropped when either
endpoint lacks a device or a cluster or when both resolve to the same
node.  (`conn.speed ?? 1000` and `conn.utilization ?? 0` are identities
for type-correct topologies, whose `speed`/`utilization` are present.) -/
def connCandidate (t : Topology) (E : List String) (conn : Connection) : Option REdge :=
  match truthyStr conn.source.device, truthyStr conn.target.device with
  | some sourceDevice, some targetDevice =>
      match truthyStr ((getDev t.devices sourceDevice).bind Device.cluster_id),
          truthyStr ((getDev t.devices targetDevice).bind Device.cluster_id) with
      | some sourceCluster, some targetCluster =>
          let sourceExpanded := E.contains sourceCluster
          let targetExpanded := E.contains targetCluster
          let actualSource :=
            if sourceExpanded && targetExpanded then sourceDevice
            else if sourceExpanded then sourceDevice
            else if targetExpanded then sourceCluster
            else sourceCluster
          let actualTarget :=
            if sourceExpanded && targetExpanded then targetDevice
            else if sourceExpanded then targetCluster
            else if targetExpanded then targetDevice
            else targetCluster
          if actualSource = actualTarget then none
          else
            some { id := "edge-" ++ edgeKey actualSource actualTarget
                   source := actualSource
                   target := actualTarget
                   etype := "physical"
                   data := { sourcePort := conn.source.port
                             targetPort := conn.target.port
                             speed := conn.speed
                             utilization := conn.utilization
                             status := getEdgeStatus t sourceDevice targetDevice conn.status
                             connectionType := some conn.connection_type
                             description := conn.description
                             speedtestStatus := none } }
      | _, _ => none
  | _, _ => none

/-- The connection loop with its `addedEdges` set: a candidate whose
key was already added is skipped. -/
def connEdgesAux (t : Topology) (E : List String) :
    List Connection → List String → List REdge
  | [], _ => []
  | conn :: rest, added =>
      match connCandidate t E conn with
      | none => connEdgesAux t E rest added
      | some e =>
          let key := edgeKey e.source e.target
          if added.contains key then connEdgesAux t E rest added
          else e :: connEdgesAux t E rest (key :: added)

/-- All edges derived from device-to-device connections. -/
def connEdges (t : Topology) (E : List String) : List REdge :=
  connEdgesAux t E t.connections []

/-- The edge contributed by one external link. -/
def externalEdge (t : Topology) (E : List String) (spd : Option String)
    (link : ExternalLink) : Option REdge :=
  let sourceDeviceId := truthyStr link.source.device
  let sourceCluster :=
    match sourceDeviceId with
    | some d => truthyStr ((getDev t.devices d).bind Device.cluster_id)
    | none => none
  let sourceId : Option String :=
    match sourceDeviceId, sourceCluster with
    | some d, some c => some (if E.contains c then d else c)
    | _, _ =>
        match truthyStr link.source.label with
        | some lbl => some ("external-" ++ lbl)
        | none => none
  match sourceId with
  | none => none
  | some sid =>
      let st :=
        match sourceDeviceId with
        | some d =>
            match getDev t.devices d with
            | some dev =>
                if dev.status = "down" then "down"
                else if dev.status = "degraded" then "degraded"
                else link.status
            | none => link.status
        | none => link.status
      some { id := "edge-" ++ link.id
             source := sid
             target := "external-" ++ link.target.label
             etype := "physical"
             data := { sourcePort := link.source.port
                       targetPort := none
                       speed := link.speed
                       utilization := link.utilization
                       status := st
                       connectionType := some "wan"
                       description := link.description
                       speedtestStatus := some spd } }

/-- `topologyToEdges(topology, expandedClusters, speedtestStatus)`. -/
def topologyToEdges (t : Topology) (E : List String) (spd : Option String) :
    List REdge :=
  connEdges t E ++ t.external_links.filterMap (externalEdge t E spd)

/-- Reference deduplication: keep the first edge for each unordered
endpoint pair, given the set of keys already seen. -/
def keepFirstAux : List REdge → List String → List REdge
  | [], _ => []
  | e :: rest, seen =>
      let k := edgeKey e.source e.target
      if seen.contains k then keepFirstAux rest seen
      else e :: keepFirstAux rest (k :: seen)

/-- Reference deduplication over a candidate list. -/
def keepFirstByKey (l : List REdge) : List REdge :=
  keepFirstAux l []

/-! ## Concrete data used by witnesses and counterexamples -/

/-- A device with no IP whose id is a substring of the test hostname. -/
def devTen : Device :=
  { id := "10", ip := none, status := "up", cluster_id := none }

/-- A device whose IP is exactly the test hostname. -/
def devCat : Device :=
  { id := "cat-1", ip := some "10.0.0.5", status := "up", cluster_id := none }

/-- Device map where the substring-matching device precedes the
IP-matching one in key insertion order. -/
def ipOrderDevs : List (String × Device) :=
  [("10", devTen), ("cat-1", devCat)]

/-- Two-device topology with consistent counters, for the counter
invariant witness. -/
def twoDevTopo : Topology :=
  { devices :=
      [("a", { id := "a", ip := none, status := "up", cluster_id := none }),
        ("b", { id := "b", ip := none, status := "down", cluster_id := none })]
    connections := []
    external_links := []
    devices_up := 1
    devices_down := 1
    active_alerts := 0 }

/-- A status-change sequence passing through degraded and unknown, with
one unknown device id. -/
def twoDevCmds : List (String × String) :=
  [("a", "degraded"), ("a", "down"), ("b", "unknown"), ("b", "up"), ("zz", "down")]

/-- Two axis-aligned boxes that merely touch: `touchBoxA.right = touchBoxB.x`. -/
def touchBoxA : BoundingBox :=
  { id := "a", clusterId := none, x := 0, y := 0, width := 100, height := 100,
    right := 100, bottom := 100 }

def touchBoxB : BoundingBox :=
  { id := "b", clusterId := none, x := 100, y := 0, width := 100, height := 100,
    right := 200, bottom := 100 }

/-- Two properly overlapping boxes with distinct overlap extents. -/
def pushBoxA : BoundingBox :=
  { id := "a", clusterId := none, x := 0, y := 0, width := 100, height := 100,
    right := 100, bottom := 100 }

def pushBoxB : BoundingBox :=
  { id := "b", clusterId := none, x := 80, y := 10, width := 100, height := 50,
    right := 180, bottom := 60 }

/-- Two collapsed cluster nodes far enough apart that no pass pushes. -/
def farNodes : List RNode :=
  [{ id := "c1", ntype := .cluster, pos := ⟨0, 0⟩, clusterId := none },
    { id := "c2", ntype := .cluster, pos := ⟨1000, 1000⟩, clusterId := none }]

/-- A device belonging to the given cluster, status up. -/
def clusteredDev (idv cid : String) : Device :=
  { id := idv, ip := none, status := "up", cluster_id := some cid }

/-- A `d1 → d2` connection with the given id and utilization. -/
def d1d2Conn (cid : String) (u : ℚ) : Connection :=
  { id := cid
    source := { device := some "d1", port := none, label := none }
    target := { device := some "d2", port := none, label := none }
    connection_type := "trunk"
    speed := 1000
    status := "up"
    utilization := u
    description := none }

/-- Topology with two duplicate `d1 → d2` connections; the second has
the higher utilization. -/
def dupConnTopo : Topology :=
  { devices := [("d1", clusteredDev "d1" "c1"), ("d2", clusteredDev "d2" "c2")]
    connections := [d1d2Conn "conn-1" 10, d1d2Conn "conn-2" 90]
    external_links := []
    devices_up := 2
    devices_down := 0
    active_alerts := 0 }

/-- A stored entry whose value is not an `x`/`y` object. -/
def corruptEntry : String × JVal := ("nodeA", .jstr "corrupt")

/-- A well-formed stored entry. -/
def goodEntry : String × JVal := ("nodeB", .jobj [("x", .jnum 1), ("y", .jnum 2)])

/-- A parseable store holding one corrupt and one well-formed entry. -/
def mixedStore : List (String × JVal) := [corruptEntry, goodEntry]

/-- A critical alert used by the alert-store witnesses. -/
def alertA1 : Alert :=
  { id := "a1", device_id := "d1", severity := "critical",
    message := "down", status := "active", timestamp := "t0" }

/-- A store whose critical overlay references alert `a1`. -/
def overlayState : AlertState :=
  { alerts := [alertA1], toasts := [], criticalOverlay := some alertA1 }

end Watchtower

namespace Watchtower

/-! ## Helper lemmas -/

/-- `setDevStatus` preserves the key sequence of the device map. -/
theorem setDevStatus_keys (devs : List (String × Device)) (id st : String) :
    (setDevStatus devs id st).map Prod.fst = devs.map Prod.fst := by
  induction devs with
  | nil => rfl
  | cons e t ih =>
      simp only [setDevStatus, List.map_cons] at ih ⊢
      by_cases h : e.1 = id <;> simp [h, ih]

/-- `setDevStatus` is the identity when the key is absent. -/
theorem setDevStatus_of_not_mem (devs : List (String × Device)) (id st : String)
    (h : id ∉ devs.map Prod.fst) : setDevStatus devs id st = devs := by
  induction devs with
  | nil => rfl
  | cons e t ih =>
      simp only [List.map_cons, List.mem_cons] at h
      push_neg at h
      simp only [setDevStatus, List.map_cons]
      rw [if_neg (fun he => h.1 he.symm)]
      have := ih h.2
      simp only [setDevStatus] at this
      rw [this]

/-- A successful device lookup implies key membership. -/
theorem getDev_mem_keys {devs : List (String × Device)} {id : String} {d : Device}
    (h : getDev devs id = some d) : id ∈ devs.map Prod.fst := by
  induction devs with
  | nil => simp [getDev] at h
  | cons e t ih =>
      simp only [getDev] at h
      by_cases he : e.1 = id
      · simp [he]
      · rw [if_neg he] at h
        simp [ih h]

/-- Replacing the unique entry at key `id` shifts any `countP` by the
difference between the old and the new entry's contribution. -/
theorem countP_setDevStatus (p : String × Device → Bool)
    (devs : List (String × Device)) (id st : String) (d : Device)
    (hn : (devs.map Prod.fst).Nodup) (hd : getDev devs id = some d) :
    (setDevStatus devs id st).countP p + (if p (id, d) then 1 else 0)
      = devs.countP p + (if p (id, { d with status := st }) then 1 else 0) := by
  induction devs with
  | nil => simp [getDev] at hd
  | cons e t ih =>
      obtain ⟨k, v⟩ := e
      simp only [List.map_cons, List.nodup_cons] at hn
      simp only [getDev] at hd
      by_cases hk : k = id
      · subst hk
        rw [if_pos rfl] at hd
        obtain rfl : v = d := by injection hd
        have htail : setDevStatus t k st = t := setDevStatus_of_not_mem t k st hn.1
        have htail' : List.map
            (fun e => if e.1 = k then (e.1, { e.2 with status := st }) else e) t = t := by
          simpa [setDevStatus] using htail
        have hcons : setDevStatus ((k, v) :: t) k st =
            (k, { v with status := st }) :: t := by
          simp only [setDevStatus, List.map_cons, htail']
          rw [if_pos trivial]
        rw [hcons, List.countP_cons, List.countP_cons]
        by_cases hp1 : p (k, v) = true <;>
          by_cases hp2 : p (k, { v with status := st }) = true <;>
          simp [hp1, hp2]
      · rw [if_neg hk] at hd
        have := ih hn.2 hd
        simp only [setDevStatus, List.map_cons, if_neg hk] at this ⊢
        rw [List.countP_cons, List.countP_cons]
        omega

/-- One `updateDeviceStatus` call preserves the key sequence and the
counter invariant. -/
theorem updateDeviceStatus_step (t : Topology) (id st : String)
    (hn : (t.devices.map Prod.fst).Nodup) (h : countersConsistent t) :
    (updateDeviceStatus t id st).devices.map Prod.fst = t.devices.map Prod.fst ∧
      countersConsistent (updateDeviceStatus t id st) := by
  unfold updateDeviceStatus
  cases hgd : getDev t.devices id with
  | none => exact ⟨rfl, h⟩
  | some d =>
      refine ⟨setDevStatus_keys t.devices id st, ?_, ?_⟩
      · -- devices_up
        have hup := countP_setDevStatus (fun e => e.2.status == "up") t.devices id st d hn hgd
        simp only at hup
        have hupz : ((setDevStatus t.devices id st).countP (fun e => e.2.status == "up") : ℤ)
            + (if d.status = "up" then 1 else 0)
            = (t.devices.countP (fun e => e.2.status == "up") : ℤ)
            + (if st = "up" then 1 else 0) := by
          by_cases h1 : d.status = "up" <;> by_cases h2 : st = "up" <;>
            simp [h1, h2] at hup ⊢ <;> exact_mod_cast hup
        have hc := h.1
        simp only [countStatus] at hc ⊢
        by_cases hds : d.status = st
        · subst hds
          simp only [ne_eq, not_true_eq_false, if_false, ite_not]
          simp only [if_pos rfl] at *
          omega
        · rw [if_pos hds]
          by_cases h1 : d.status = "up" <;> by_cases h2 : st = "up" <;>
            simp [h1, h2] at hupz ⊢ <;> omega
      · -- devices_down
        have hdn := countP_setDevStatus (fun e => e.2.status == "down") t.devices id st d hn hgd
        simp only at hdn
        have hdnz : ((setDevStatus t.devices id st).countP (fun e => e.2.status == "down") : ℤ)
            + (if d.status = "down" then 1 else 0)
            = (t.devices.countP (fun e => e.2.status == "down") : ℤ)
            + (if st = "down" then 1 else 0) := by
          by_cases h1 : d.status = "down" <;> by_cases h2 : st = "down" <;>
            simp [h1, h2] at hdn ⊢ <;> exact_mod_cast hdn
        have hc := h.2
        simp only [countStatus] at hc ⊢
        by_cases hds : d.status = st
        · subst hds
          simp only [ne_eq, not_true_eq_false, if_false, ite_not]
          simp only [if_pos rfl] at *
          omega
        · rw [if_pos hds]
          by_cases h1 : d.status = "down" <;> by_cases h2 : st = "down" <;>
            simp [h1, h2] at hdnz ⊢ <;> omega

/-- Toasts after `addAlert` are the capped prepend of the fresh toast. -/
theorem addAlert_toasts (now : ℕ) (a : Alert) (s : AlertState) :
    (addAlert now a s).toasts =
      ({ id := "toast-" ++ a.id ++ "-" ++ toString now, alert := a,
          dismissed := false } :: s.toasts).take 5 := by
  unfold addAlert addToast setCriticalOverlay
  by_cases h : (a.severity == "critical") = true <;> simp [h]

/-- Unfolding of the overlap test into the four separation inequalities. -/
theorem boxesOverlap_eq_true_iff (a b : BoundingBox) :
    boxesOverlap a b = true ↔
      b.x ≤ a.right ∧ a.x ≤ b.right ∧ b.y ≤ a.bottom ∧ a.y ≤ b.bottom := by
  simp [boxesOverlap, not_lt, not_or, and_assoc]

/-- Closed form of the push vector. -/
theorem calculatePushVector_eq (a b : BoundingBox) :
    calculatePushVector a b =
      if min a.right b.right - max a.x b.x <
          min a.bottom b.bottom - max a.y b.y then
        (if a.x + a.width / 2 < b.x + b.width / 2 then
            min a.right b.right - max a.x b.x + 40
          else -(min a.right b.right - max a.x b.x + 40), 0)
      else
        (0, if a.y + a.height / 2 < b.y + b.height / 2 then
            min a.bottom b.bottom - max a.y b.y + 40
          else -(min a.bottom b.bottom - max a.y b.y + 40)) := by
  unfold calculatePushVector PADDING
  by_cases hxy : min a.right b.right - max a.x b.x <
      min a.bottom b.bottom - max a.y b.y
  · by_cases hc : a.x + a.width / 2 < b.x + b.width / 2 <;>
      simp [hxy, hc] <;> ring
  · by_cases hc : a.y + a.height / 2 < b.y + b.height / 2 <;>
      simp [hxy, hc] <;> ring

/-- With zero overlaps recorded, every per-node push of the pass is 0. -/
theorem deltaTotal_zero_of_no_ov (ns : List RNode) (E : List String)
    (h : passOv ns E = false) (k : ℕ) : deltaTotal ns E k = (0, 0) := by
  have h' := h
  simp only [passOv, Bool.or_eq_false_iff, List.any_eq_false] at h'
  obtain ⟨⟨hA, hB⟩, hC⟩ := h'
  have haz : deltaA ns E k = 0 := by
    apply List.sum_eq_zero
    intro x hx
    simp only [List.mem_map, List.mem_range] at hx
    obtain ⟨i, hik, rfl⟩ := hx
    by_cases hk : k < ns.length
    · have h1 := hA k (List.mem_range.mpr hk)
      have h1f := Bool.eq_false_iff.mpr h1
      simp only [List.any_eq_false] at h1f
      have h2 := h1f i (List.mem_range.mpr hik)
      rw [if_neg h2]
      rfl
    · have hd : nodeAt ns k = dummyNode := by
        unfold nodeAt
        exact List.getD_eq_default _ _ (le_of_not_lt hk)
      have : phaseAInner (nodeAt ns k) = false := by rw [hd]; rfl
      simp [this]
  have hbz : deltaB ns k = 0 := by
    apply List.sum_eq_zero
    intro x hx
    simp only [List.mem_map] at hx
    obtain ⟨cid, hcid, rfl⟩ := hx
    by_cases hk : k < ns.length
    · have h1 := hB cid hcid
      have h1f := Bool.eq_false_iff.mpr h1
      simp only [List.any_eq_false] at h1f
      have h2 := h1f k (List.mem_range.mpr hk)
      rw [if_neg h2]
      rfl
    · have hd : nodeAt ns k = dummyNode := by
        unfold nodeAt
        exact List.getD_eq_default _ _ (le_of_not_lt hk)
      have : phaseBCond cid (nodeAt ns k) = false := by rw [hd]; rfl
      simp [this]
  have hcz : deltaC ns k = 0 := by
    apply List.sum_eq_zero
    intro x hx
    simp only [List.mem_map] at hx
    obtain ⟨pq, hpq, rfl⟩ := hx
    have h1 := hC pq hpq
    simp only [Bool.not_eq_true] at h1
    simp [h1]
  have hz1 : (deltaA ns E k).1 = 0 := by rw [haz]; rfl
  have hz2 : (deltaA ns E k).2 = 0 := by rw [haz]; rfl
  have hz3 : (deltaB ns k).1 = 0 := by rw [hbz]; rfl
  have hz4 : (deltaB ns k).2 = 0 := by rw [hbz]; rfl
  have hz5 : (deltaC ns k).1 = 0 := by rw [hcz]; rfl
  have hz6 : (deltaC ns k).2 = 0 := by rw [hcz]; rfl
  simp [deltaTotal, hz1, hz2, hz3, hz4, hz5, hz6]

/-- With all pushes zero, one pass is the identity on the node list. -/
theorem applyDeltas_id (ns0 : List RNode) (E : List String)
    (h : ∀ k, deltaTotal ns0 E k = (0, 0)) :
    ∀ (k : ℕ) (l : List RNode), applyDeltas ns0 E k l = l := by
  intro k l
  induction l generalizing k with
  | nil => rfl
  | cons n t ih => simp [applyDeltas, h, addDelta, ih]

/-- The connection loop equals candidate extraction followed by
first-wins key deduplication, for any starting key set. -/
theorem connEdgesAux_eq_keepFirst (t : Topology) (E : List String) :
    ∀ (conns : List Connection) (added : List String),
      connEdgesAux t E conns added =
        keepFirstAux (conns.filterMap (connCandidate t E)) added := by
  intro conns
  induction conns with
  | nil => intro added; rfl
  | cons c rest ih =>
      intro added
      simp only [connEdgesAux, List.filterMap_cons]
      cases hc : connCandidate t E c with
      | none => simp [ih]
      | some e =>
          simp only [keepFirstAux]
          by_cases hk : added.contains (edgeKey e.source e.target) <;>
            simp [hk, ih]

/-- First-wins deduplication emits pairwise-distinct keys, none of them
already seen. -/
theorem keepFirstAux_nodup :
    ∀ (l : List REdge) (seen : List String),
      ((keepFirstAux l seen).map (fun e => edgeKey e.source e.target)).Nodup ∧
        ∀ k ∈ (keepFirstAux l seen).map (fun e => edgeKey e.source e.target),
          k ∉ seen := by
  intro l
  induction l with
  | nil => intro seen; simp [keepFirstAux]
  | cons e rest ih =>
      intro seen
      simp only [keepFirstAux]
      by_cases hc : seen.contains (edgeKey e.source e.target)
      · simp only [if_pos hc]
        exact ih seen
      · simp only [if_neg hc]
        have htail := ih (edgeKey e.source e.target :: seen)
        refine ⟨?_, ?_⟩
        · simp only [List.map_cons, List.nodup_cons]
          refine ⟨fun hmem => ?_, htail.1⟩
          exact (htail.2 _ hmem) (List.mem_cons_self _ _)
        · intro k hk
          simp only [List.map_cons, List.mem_cons] at hk
          rcases hk with rfl | hk
          · intro hmem
            exact hc (List.elem_iff.mpr hmem)
          · have := htail.2 k hk
            simp only [List.mem_cons, not_or] at this
            exact this.2

end Watchtower

namespace Watchtower

/-! ## Claim theorems (frozen claims C1–C10) -/

/-- C1: starting from a topology whose `devices_up`/`devices_down`
counters equal the derived counts of devices with status `"up"` /
`"down"`, any sequence of `updateDeviceStatus` calls (arbitrary device
ids and arbitrary new statuses, including degraded and unknown, which
count in neither bucket) preserves both equalities. -/
theorem updateDeviceStatus_counter_invariant (t : Topology)
    (cmds : List (String × String)) (hn : (t.devices.map Prod.fst).Nodup)
    (h : countersConsistent t) :
    countersConsistent (applyStatusUpdates t cmds) := by
  induction cmds generalizing t with
  | nil => exact h
  | cons c cs ih =>
      have step := updateDeviceStatus_step t c.1 c.2 hn h
      have hn' : ((updateDeviceStatus t c.1 c.2).devices.map Prod.fst).Nodup := by
        rw [step.1]; exact hn
      simpa [applyStatusUpdates] using ih (updateDeviceStatus t c.1 c.2) hn' step.2

/-- Witness for C1: a two-device topology driven through degraded,
unknown, up and down transitions, plus an unmatched device id. -/
theorem updateDeviceStatus_counter_invariant_witness :
    ((twoDevTopo.devices.map Prod.fst).Nodup ∧ countersConsistent twoDevTopo) ∧
      countersConsistent (applyStatusUpdates twoDevTopo twoDevCmds) :=
  ⟨⟨by decide, by decide⟩,
    updateDeviceStatus_counter_invariant twoDevTopo twoDevCmds (by decide) (by decide)⟩

/-- C4 counterexample: hostname `"10.0.0.5"` is exactly device
`cat-1`'s IP, yet the scan returns `"10"`, a device with no IP at all,
because its id substring-matches the hostname earlier in map order. -/
theorem findTopologyDeviceId_ip_priority_fails :
    findTopologyDeviceId "10.0.0.5" ipOrderDevs = some "10" ∧
      (getDev ipOrderDevs "cat-1").map Device.ip = some (some "10.0.0.5") ∧
      (getDev ipOrderDevs "10").map Device.ip = some none := by
  refine ⟨?_, by decide, by decide⟩
  decide

/-- C4 amended: identity resolution is first-match-wins over a single
scan — the result is the first device in map order matching either by
exact (non-empty) IP equality or by case-insensitive id-substring; IP
equality has priority only within one device entry, so a later device's
exact IP match cannot override an earlier device's substring match. -/
theorem findTopologyDeviceId_first_match (hostname : String)
    (devs : List (String × Device)) :
    findTopologyDeviceId hostname devs =
      (devs.find? (deviceMatches hostname)).map Prod.fst := by
  induction devs with
  | nil => rfl
  | cons e t ih =>
      obtain ⟨id, d⟩ := e
      cases hb1 : ipMatches hostname d with
      | true =>
          rw [List.find?_cons_of_pos _ (by simp [deviceMatches, hb1])]
          simp [findTopologyDeviceId, hb1]
      | false =>
          cases hb2 : strIncludes (strLower hostname) (strLower id) with
          | true =>
              rw [List.find?_cons_of_pos _ (by simp [deviceMatches, hb1, hb2])]
              simp [findTopologyDeviceId, hb1, hb2]
          | false =>
              rw [List.find?_cons_of_neg _ (by simp [deviceMatches, hb1, hb2])]
              simp [findTopologyDeviceId, hb1, hb2, ih]

/-- C9: the toast queue is bounded at 5, newest first: a single
`addAlert` never leaves more than 5 toasts, and from the empty store any
call sequence leaves exactly the toasts of the (up to) 5 most recent
alerts in newest-first order — older alerts are dropped from the list. -/
theorem addAlert_toast_cap :
    (∀ (now : ℕ) (a : Alert) (s : AlertState),
        (addAlert now a s).toasts.length ≤ 5) ∧
      ∀ calls : List (Alert × ℕ),
        ((runAddAlerts calls emptyAlertState).toasts).map Toast.alert =
          ((calls.map Prod.fst).reverse).take 5 ∧
          (runAddAlerts calls emptyAlertState).toasts.length ≤ 5 := by
  constructor
  · intro now a s
    rw [addAlert_toasts, List.length_take]
    exact Nat.min_le_left _ _
  · intro calls
    induction calls using List.reverseRecOn with
    | nil => simp [runAddAlerts, emptyAlertState]
    | append_singleton cs c ih =>
        have hrun : runAddAlerts (cs ++ [c]) emptyAlertState =
            addAlert c.2 c.1 (runAddAlerts cs emptyAlertState) := by
          simp [runAddAlerts, List.foldl_append]
        constructor
        · rw [hrun, addAlert_toasts, List.map_take, List.map_cons, ih.1]
          simp [List.take_succ_cons, List.take_take]
        · rw [hrun, addAlert_toasts, List.length_take]
          exact Nat.min_le_left _ _

/-- C10: `removeAlert` only filters the alert list — the toast list and
the critical overlay are untouched; in particular, when the overlay
references the removed alert it still holds that alert afterwards. -/
theorem removeAlert_frame (s : AlertState) (alertId : String) :
    (removeAlert alertId s).toasts = s.toasts ∧
      (removeAlert alertId s).criticalOverlay = s.criticalOverlay ∧
      (removeAlert alertId s).alerts = s.alerts.filter (fun a => a.id ≠ alertId) ∧
      ∀ a : Alert, s.criticalOverlay = some a →
        (removeAlert alertId s).criticalOverlay = some a := by
  refine ⟨rfl, rfl, rfl, ?_⟩
  intro a ha
  simpa [removeAlert] using ha

/-- Witness for C10: removing the overlay's own alert (a stream-pushed
resolution) leaves the overlay still holding that alert. -/
theorem removeAlert_frame_witness :
    (removeAlert "a1" overlayState).criticalOverlay = some alertA1 :=
  (removeAlert_frame overlayState "a1").2.2.2 alertA1 rfl

/-- C3 counterexample: two boxes that merely touch
(`touchBoxA.right = touchBoxB.x`, interiors disjoint) are reported as
overlapping, so the test is not strict. -/
theorem boxesOverlap_touching_counterexample :
    touchBoxA.right = touchBoxB.x ∧ boxesOverlap touchBoxA touchBoxB = true :=
  ⟨rfl, by decide⟩

/-- C3 amended: the overlap test is non-strict — `boxesOverlap` returns
true exactly when the boxes are not strictly separated on either axis,
so boxes that merely touch count as overlapping and false is returned
only for strictly disjoint boxes. -/
theorem boxesOverlap_nonstrict (a b : BoundingBox) :
    boxesOverlap a b = true ↔
      b.x ≤ a.right ∧ a.x ≤ b.right ∧ b.y ≤ a.bottom ∧ a.y ≤ b.bottom :=
  boxesOverlap_eq_true_iff a b

/-- C5: when the first relaxation pass records zero pushes (an
already-resolved node set), `resolveOverlaps` returns the node list
unchanged — every node keeps its position, so a second application
after a converged first application changes nothing. -/
theorem resolveOverlaps_idempotent (ns : List RNode) (E : List String)
    (h : passOv ns E = false) : resolveOverlaps ns E = ns := by
  have hz := deltaTotal_zero_of_no_ov ns E h
  have hp : passNodes ns E = ns := applyDeltas_id ns E hz 0 ns
  show resolveLoop E 50 ns = ns
  unfold resolveLoop
  rw [if_neg (by simp [h]), hp]

/-- Witness for C5: two far-apart collapsed clusters are already
resolved, and resolving them moves nothing. -/
theorem resolveOverlaps_idempotent_witness :
    passOv farNodes [] = false ∧ resolveOverlaps farNodes [] = farNodes := by
  have hov : boxesOverlap (boxAt farNodes 0) (boxAt farNodes 1) = false := by
    simp [boxesOverlap, boxAt, nodeAt, farNodes, getNodeBoundingBox,
      nodeWidth, nodeHeight, PADDING, dummyNode]
    norm_num
  have hcid : clusterIdsOf farNodes = [] := by decide
  have h2 : List.range farNodes.length = [0, 1] := by decide
  have h1 : List.range 1 = [0] := by decide
  have hp : passOv farNodes [] = false := by
    simp only [passOv, hcid, h2, h1, listPairs, List.any_nil, List.any_cons,
      List.range_zero, Bool.or_false, Bool.false_or, hov, Bool.and_false]
  exact ⟨hp, resolveOverlaps_idempotent farNodes [] hp⟩

/-- C6: for overlapping well-formed boxes the push vector is nonzero on
exactly one axis, an axis whose overlap extent is no larger than the
other's; its magnitude there is that axis's overlap plus the padding
unit 40, and its sign points from `a`'s centroid toward `b`'s centroid
on that axis. -/
theorem calculatePushVector_least_axis (a b : BoundingBox)
    (haw : a.right = a.x + a.width) (hah : a.bottom = a.y + a.height)
    (hbw : b.right = b.x + b.width) (hbh : b.bottom = b.y + b.height)
    (haw0 : 0 ≤ a.width) (hah0 : 0 ≤ a.height)
    (hbw0 : 0 ≤ b.width) (hbh0 : 0 ≤ b.height)
    (hov : boxesOverlap a b = true) :
    ((calculatePushVector a b).1 = 0 ∨ (calculatePushVector a b).2 = 0) ∧
      ¬((calculatePushVector a b).1 = 0 ∧ (calculatePushVector a b).2 = 0) ∧
      ((calculatePushVector a b).1 ≠ 0 →
        min a.right b.right - max a.x b.x ≤
            min a.bottom b.bottom - max a.y b.y ∧
          |(calculatePushVector a b).1| =
            min a.right b.right - max a.x b.x + 40 ∧
          (a.x + a.width / 2 < b.x + b.width / 2 →
            0 < (calculatePushVector a b).1) ∧
          (b.x + b.width / 2 < a.x + a.width / 2 →
            (calculatePushVector a b).1 < 0)) ∧
      ((calculatePushVector a b).2 ≠ 0 →
        min a.bottom b.bottom - max a.y b.y ≤
            min a.right b.right - max a.x b.x ∧
          |(calculatePushVector a b).2| =
            min a.bottom b.bottom - max a.y b.y + 40 ∧
          (a.y + a.height / 2 < b.y + b.height / 2 →
            0 < (calculatePushVector a b).2) ∧
          (b.y + b.height / 2 < a.y + a.height / 2 →
            (calculatePushVector a b).2 < 0)) := by
  obtain ⟨h1, h2, h3, h4⟩ := (boxesOverlap_eq_true_iff a b).mp hov
  have hovX : 0 ≤ min a.right b.right - max a.x b.x := by
    have : max a.x b.x ≤ min a.right b.right :=
      max_le (le_min (by linarith) h2) (le_min h1 (by linarith))
    linarith
  have hovY : 0 ≤ min a.bottom b.bottom - max a.y b.y := by
    have : max a.y b.y ≤ min a.bottom b.bottom :=
      max_le (le_min (by linarith) h4) (le_min h3 (by linarith))
    linarith
  rw [calculatePushVector_eq]
  by_cases hxy : min a.right b.right - max a.x b.x <
      min a.bottom b.bottom - max a.y b.y
  · rw [if_pos hxy]
    by_cases hc : a.x + a.width / 2 < b.x + b.width / 2
    · rw [if_pos hc]
      refine ⟨Or.inr rfl, ?_, ?_, ?_⟩
      · rintro ⟨hz, -⟩
        have hz' : min a.right b.right - max a.x b.x + 40 = 0 := hz
        linarith
      · intro _
        refine ⟨le_of_lt hxy, ?_, ?_, ?_⟩
        · exact abs_of_pos
            (show (0 : ℚ) < min a.right b.right - max a.x b.x + 40 by linarith)
        · intro _
          show (0 : ℚ) < min a.right b.right - max a.x b.x + 40
          linarith
        · intro hlt; exact absurd hlt (not_lt.mpr (le_of_lt hc))
      · intro hz; exact absurd rfl hz
    · rw [if_neg hc]
      refine ⟨Or.inr rfl, ?_, ?_, ?_⟩
      · rintro ⟨hz, -⟩
        have hz' : -(min a.right b.right - max a.x b.x + 40) = 0 := hz
        linarith
      · intro _
        refine ⟨le_of_lt hxy, ?_, ?_, ?_⟩
        · show |(-(min a.right b.right - max a.x b.x + 40))| =
            min a.right b.right - max a.x b.x + 40
          rw [abs_neg]
          exact abs_of_pos (by linarith)
        · intro hlt; exact absurd hlt hc
        · intro _
          show -(min a.right b.right - max a.x b.x + 40) < 0
          linarith
      · intro hz; exact absurd rfl hz
  · rw [if_neg hxy]
    have hyx : min a.bottom b.bottom - max a.y b.y ≤
        min a.right b.right - max a.x b.x := le_of_not_lt hxy
    by_cases hc : a.y + a.height / 2 < b.y + b.height / 2
    · rw [if_pos hc]
      refine ⟨Or.inl rfl, ?_, ?_, ?_⟩
      · rintro ⟨-, hz⟩
        have hz' : min a.bottom b.bottom - max a.y b.y + 40 = 0 := hz
        linarith
      · intro hz; exact absurd rfl hz
      · intro _
        refine ⟨hyx, ?_, ?_, ?_⟩
        · exact abs_of_pos
            (show (0 : ℚ) < min a.bottom b.bottom - max a.y b.y + 40 by linarith)
        · intro _
          show (0 : ℚ) < min a.bottom b.bottom - max a.y b.y + 40
          linarith
        · intro hlt; exact absurd hlt (not_lt.mpr (le_of_lt hc))
    · rw [if_neg hc]
      refine ⟨Or.inl rfl, ?_, ?_, ?_⟩
      · rintro ⟨-, hz⟩
        have hz' : -(min a.bottom b.bottom - max a.y b.y + 40) = 0 := hz
        linarith
      · intro hz; exact absurd rfl hz
      · intro _
        refine ⟨hyx, ?_, ?_, ?_⟩
        · show |(-(min a.bottom b.bottom - max a.y b.y + 40))| =
            min a.bottom b.bottom - max a.y b.y + 40
          rw [abs_neg]
          exact abs_of_pos (by linarith)
        · intro hlt; exact absurd hlt hc
        · intro _
          show -(min a.bottom b.bottom - max a.y b.y + 40) < 0
          linarith

/-- Witness for C6: two concrete overlapping boxes satisfying the
well-formedness hypotheses. -/
theorem calculatePushVector_least_axis_witness :
    boxesOverlap pushBoxA pushBoxB = true ∧
      ((calculatePushVector pushBoxA pushBoxB).1 = 0 ∨
        (calculatePushVector pushBoxA pushBoxB).2 = 0) :=
  ⟨by decide,
    (calculatePushVector_least_axis pushBoxA pushBoxB
      (by norm_num [pushBoxA]) (by norm_num [pushBoxA])
      (by norm_num [pushBoxB]) (by norm_num [pushBoxB])
      (by decide) (by decide) (by decide) (by decide)
      (by decide)).1⟩

/-- C2 counterexample: two duplicate `d1 → d2` connections (utilization
10 then 90) collapse to a single `c1 → c2` edge, but it carries the
FIRST duplicate's utilization 10, not the highest (90). -/
theorem topologyToEdges_duplicate_counterexample :
    (topologyToEdges dupConnTopo [] none).map
        (fun e => (e.source, e.target, e.data.utilization)) =
      [("c1", "c2", 10)] ∧
      dupConnTopo.connections.map Connection.utilization = [10, 90] := by
  constructor
  · decide
  · decide

/-- C2 amended: duplicate device-to-device connections resolving to the
same unordered endpoint pair are collapsed to exactly one edge per pair
(the emitted keys are pairwise distinct), and the surviving edge's data
is that of the first duplicate in connection-list order, not the
highest-utilization one. -/
theorem connEdges_keeps_first (t : Topology) (E : List String) :
    connEdges t E = keepFirstByKey (t.connections.filterMap (connCandidate t E)) ∧
      ((connEdges t E).map (fun e => edgeKey e.source e.target)).Nodup := by
  have heq : connEdges t E =
      keepFirstAux (t.connections.filterMap (connCandidate t E)) [] :=
    connEdgesAux_eq_keepFirst t E t.connections []
  exact ⟨heq, by rw [heq]; exact (keepFirstAux_nodup _ []).1⟩

/-- C8 counterexample: a parseable store holding one corrupt entry is
returned verbatim — the corrupt entry is kept, not dropped, so loading
is not tolerant per entry. -/
theorem loadSavedPositions_keeps_corrupt_entry :
    wellFormedPos corruptEntry.2 = false ∧
      loadSavedPositions (some (some mixedStore)) = mixedStore ∧
      corruptEntry ∈ loadSavedPositions (some (some mixedStore)) :=
  ⟨rfl, rfl,
    show corruptEntry ∈ [corruptEntry, goodEntry] from List.mem_cons_self _ _⟩

/-- C8 amended: load tolerance is whole-store, not per-entry — missing
storage or a store string that fails to parse yields the empty store
(every id falls back to its computed default), while a successfully
parsed store is used verbatim with no per-entry validation, so no entry
of it, corrupt or well-formed, is ever dropped. -/
theorem loadSavedPositions_whole_store :
    loadSavedPositions none = [] ∧
      loadSavedPositions (some none) = [] ∧
      (∀ store : List (String × JVal),
        loadSavedPositions (some (some store)) = store) ∧
      ∀ (store : List (String × JVal)) (e : String × JVal),
        e ∈ store → e ∈ loadSavedPositions (some (some store)) :=
  ⟨rfl, rfl, fun _ => rfl, fun _ _ h => h⟩

end Watchtower

namespace Watchtower

/-! ## Theorems -/

/-! ### C7: reconnect backoff -/

/-- C7: the reconnect delay for attempt counter `n` is
`min(1000 * 2^n, 30000)` ms; attempts 0,1,2,3 give 1000, 2000, 4000,
8000 ms, and every attempt `n ≥ 5` gives exactly 30000 ms. -/
theorem reconnectDelay_backoff :
    (∀ n : ℕ, reconnectDelay n = min (1000 * 2 ^ n) 30000) ∧
      reconnectDelay 0 = 1000 ∧ reconnectDelay 1 = 2000 ∧
      reconnectDelay 2 = 4000 ∧ reconnectDelay 3 = 8000 ∧
      ∀ n : ℕ, 5 ≤ n → reconnectDelay n = 30000 := by
  refine ⟨fun n => rfl, by decide, by decide, by decide, by decide, ?_⟩
  intro n hn
  have h32 : (32 : ℕ) ≤ 2 ^ n := by
    calc (32 : ℕ) = 2 ^ 5 := by decide
    _ ≤ 2 ^ n := Nat.pow_le_pow_right (by decide) hn
  have : (30000 : ℕ) ≤ 1000 * 2 ^ n := by
    calc (30000 : ℕ) ≤ 1000 * 32 := by decide
    _ ≤ 1000 * 2 ^ n := Nat.mul_le_mul_left 1000 h32
  simpa [reconnectDelay] using Nat.min_eq_right this

/-- Witness for C7: the universally quantified capped branch applied at
the concrete attempt counter 6. -/
theorem reconnectDelay_backoff_witness : reconnectDelay 6 = 30000 :=
  reconnectDelay_backoff.2.2.2.2.2 6 (by decide)

end Watchtower
